import Mathlib

/-!
Shallow embedding of `src/ai-git-commit.py` (a single-file CLI that asks an
LLM endpoint for commit-message suggestions, lets the operator pick one, and
commits).  Python strings become Lean `String`; the process environment
(exit codes of the git commands, the API key file, the HTTP response) is an
explicit record; the files the script writes are an explicit `FS` record
threaded through the functions; fallible operations return `Except`.
-/

namespace AiGitCommit

/-! ## Python string primitives used by the script -/

/-- The whitespace set of Python `str.strip()` (ASCII part). -/
def pyIsSpace (c : Char) : Bool :=
  c = ' ' || c = '\t' || c = '\n' || c = '\r' || c = '\x0b' || c = '\x0c'

/-- Python `s.strip()`: drop leading and trailing whitespace. -/
def pyStrip (s : String) : String :=
  ⟨((s.data.dropWhile pyIsSpace).reverse.dropWhile pyIsSpace).reverse⟩

/-- Python `str.isdigit()` (ASCII digits): nonempty and all digits. -/
def pyIsDigit (s : String) : Bool :=
  !s.data.isEmpty && s.data.all (fun c => '0' ≤ c && c ≤ '9')

/-- Python `int(s)` on an all-digit string. -/
def pyToNat (s : String) : Nat :=
  s.data.foldl (fun n c => 10 * n + (c.toNat - 48)) 0

/-- Python `s.split(sep)` for a one-character separator: splits at every
occurrence, keeping empty pieces, and returns `[""]` on the empty string. -/
def pySplitOnChar (sep : Char) : List Char → List String
  | [] => [""]
  | c :: cs =>
    let rest := pySplitOnChar sep cs
    if c = sep then "" :: rest
    else
      match rest with
      | [] => [⟨[c]⟩]
      | p :: ps => ⟨c :: p.data⟩ :: ps

/-- Python `s.split("\n")`. -/
def pySplitLines (s : String) : List String :=
  pySplitOnChar '\n' s.data

/-! ## Data model -/

/-- Python exceptions that can escape the functions we embed. -/
inductive PyExc where
  /-- `IndexError` from `response.get("choices", [{}])[0]` on an empty list. -/
  | indexError
  /-- `subprocess.CalledProcessError` from `check_output`/`check_call`. -/
  | calledProcessError
deriving DecidableEq, Repr

/-- The `"message"` object of a choice; `content` is `none` when the key is
absent (`.get("content", "")` then defaults to `""`). -/
structure PyMessage where
  content : Option String
deriving DecidableEq, Repr

/-- One element of the `"choices"` array; `message` is `none` when the key is
absent (`.get("message", {})` then defaults to the empty dict). -/
structure PyChoice where
  message : Option PyMessage
deriving DecidableEq, Repr

/-- The parsed JSON body of a 200 response.  `choices = none` means the
`"choices"` key is absent (`response.get("choices", [{}])` then defaults to
`[{}]`).  `extraKeys` records whether the dict has keys besides `"choices"`:
Python's `if response:` tests dict non-emptiness, so truthiness depends on
it. -/
structure PyResponse where
  choices : Option (List PyChoice)
  extraKeys : Bool
deriving DecidableEq, Repr

/-- Python truthiness of the response dict: nonempty iff it has some key. -/
def PyResponse.truthy (r : PyResponse) : Bool :=
  r.choices.isSome || r.extraKeys

/-- Environment of one run, outside git: the API key file
(`~/.ssh/openai-api-key`; `none` = absent, `some k` = present with stripped
content `k`) and the HTTP exchange (status, parsed body on 200). -/
structure ApiEnv where
  apiKey : Option String
  httpStatus : Nat
  httpBody : PyResponse
deriving DecidableEq, Repr

/-- The files the script writes.  `requestLog` is the overwritten
`openai-request-payload.log` content; `lastResponseLog` the overwritten
`last-openai-response.log`, modelled as the logged response value
(`json.dumps` serialization abstracted); `cacheFile` the appended
`ai-commit-cache` content; `statusLog` the `ai-commit-status-starship.log`
marker as a parsed Unix timestamp, `none` when the file is absent. -/
structure FS where
  requestLog : Option String
  lastResponseLog : Option PyResponse
  cacheFile : String
  statusLog : Option Int
deriving DecidableEq, Repr

/-- An empty filesystem: no logs yet, empty cache, no status marker. -/
def fs0 : FS := ⟨none, none, "", none⟩

/-- Outcomes of the git commands the script runs: exit codes of
`git rev-parse --is-inside-work-tree` and `git diff --staged --quiet`, and
the exit code plus stdout of `git diff --staged`. -/
structure GitEnv where
  insideWorkTreeExit : Nat
  diffQuietExit : Nat
  diffExit : Nat
  diffOutput : String
deriving DecidableEq, Repr

/-- How one run of `ai_git_commit` ends.  `committed m` means
`commit_changes` was invoked with message `m` (`subprocess.run` of
`git commit -m m`, result unchecked) and the cache was appended. -/
inductive Outcome where
  | notGitRepo
  | noStagedChanges
  | noSuggestions
  | committed (message : String)
deriving DecidableEq, Repr

/-! ## The script's functions -/

def DEFAULT_MODEL : String := "gpt-3.5-turbo"

def MODEL : String := DEFAULT_MODEL

/-- `get_diff`: `subprocess.check_output(["git", "diff", "--staged"])` with
no try/except — a non-zero exit raises `CalledProcessError` to the caller. -/
def get_diff (g : GitEnv) : Except PyExc String :=
  if g.diffExit = 0 then .ok g.diffOutput else .error .calledProcessError

/-- `is_git_repo`: `check_output` of `git rev-parse --is-inside-work-tree`
inside try/except — `CalledProcessError` is caught and becomes `false`. -/
def is_git_repo (g : GitEnv) : Bool :=
  g.insideWorkTreeExit == 0

/-- `has_staged_changes`: `check_call` of `git diff --staged --quiet` inside
try/except — exit 0 means no staged changes (`false`), a raise is caught and
becomes `true`. -/
def has_staged_changes (g : GitEnv) : Bool :=
  !(g.diffQuietExit == 0)

/-- `load_api_key`: read and strip the key file; `FileNotFoundError` is
caught and becomes `None`. -/
def load_api_key (env : ApiEnv) : Option String :=
  env.apiKey

/-- `send_request_to_openai`: returns the parsed body on 200, `None`
otherwise; the Bool records whether `requests.post` was executed (it is
skipped exactly when `if not openai_api_key` — key `None` or falsy empty
string). -/
def send_request_to_openai (env : ApiEnv) : Option PyResponse × Bool :=
  match load_api_key env with
  | none => (none, false)
  | some key =>
    if key = "" then (none, false)
    else if env.httpStatus = 200 then (some env.httpBody, true)
    else (none, true)

/-- `log_request`: overwrite the request-payload log. -/
def log_request (promptText model : String) (fs : FS) : FS :=
  { fs with requestLog := some ("Model: " ++ model ++ "\nPrompt: " ++ promptText ++ "\n") }

/-- `log_response`: overwrite the last-response log. -/
def log_response (response : PyResponse) (fs : FS) : FS :=
  { fs with lastResponseLog := some response }

/-- `response.get("choices", [{}])[0].get("message", {}).get("content", "")`:
each `.get` defaults a missing key; the `[0]` raises `IndexError` when the
`"choices"` key holds an empty list. -/
def extractContent (r : PyResponse) : Except PyExc String :=
  match r.choices.getD [⟨none⟩] with
  | [] => .error .indexError
  | c :: _ => .ok ((c.message.getD ⟨none⟩).content.getD "")

/-- `get_commit_messages`: builds the prompt, overwrites the request log,
calls the API unconditionally, and on a truthy response logs it and splits
the first choice's content; otherwise returns placeholder messages chosen by
whether the diff is whitespace-only.  The Bool is the network-call flag of
`send_request_to_openai`. -/
def get_commit_messages (env : ApiEnv) (diff_output model : String) (fs : FS) :
    Except PyExc (List String) × FS × Bool :=
  let promptText := "Generate 3 commit messages for the following git diff:\n"
      ++ diff_output ++ "\nProvide only the messages."
  let fs1 := log_request promptText model fs
  let sent := send_request_to_openai env
  match sent.1 with
  | some response =>
    if response.truthy then
      let fs2 := log_response response fs1
      match extractContent response with
      | .error e => (.error e, fs2, sent.2)
      | .ok content => (.ok (pySplitLines (pyStrip content)), fs2, sent.2)
    else if (pyStrip diff_output) = "" then
      (.ok ["No changes to commit.", "Nothing modified.", "No staged changes."], fs1, sent.2)
    else
      (.ok ["Failed to generate commit messages. Please try again.",
            "Unable to fetch AI suggestions."], fs1, sent.2)
  | none =>
    if (pyStrip diff_output) = "" then
      (.ok ["No changes to commit.", "Nothing modified.", "No staged changes."], fs1, sent.2)
    else
      (.ok ["Failed to generate commit messages. Please try again.",
            "Unable to fetch AI suggestions."], fs1, sent.2)

/-- `prompt_commit_message`: the interactive loop, with the stream of
terminal lines as an explicit list.  Each `input()` consumes one element;
reading from an exhausted stream raises (EOF), which the `except Exception`
catches, yielding the fallback string. -/
def prompt_commit_message (suggestions : List String) (inputs : List String) : String :=
  match inputs with
  | [] => "Fallback: No input provided."
  | line :: rest =>
    let user_input := pyStrip line
    if pyIsDigit user_input then
      let index := pyToNat user_input
      if 1 ≤ index ∧ index ≤ suggestions.length then
        suggestions.getD (index - 1) ""
      else if index = suggestions.length + 1 then
        match rest with
        | [] => "Fallback: No input provided."
        | customLine :: rest2 =>
          let custom_message := pyStrip customLine
          if custom_message = "" then prompt_commit_message suggestions rest2
          else custom_message
      else prompt_commit_message suggestions rest
    else if user_input = "" then prompt_commit_message suggestions rest
    else
      match rest with
      | [] => "Fallback: No input provided."
      | customLine :: rest2 =>
        let custom_message := pyStrip customLine
        if custom_message = "" then prompt_commit_message suggestions rest2
        else custom_message

/-- `cache_commit_message`: append `f"{diff_output}|{commit_message}\n"` to
the cache file (mode `"a"`). -/
def cache_commit_message (diff_output commit_message : String) (fs : FS) : FS :=
  { fs with cacheFile := fs.cacheFile ++ (diff_output ++ "|" ++ commit_message ++ "\n") }

/-- `get_ai_commit_status`: read the marker, compute elapsed seconds against
`now`, and render the coarse label (Python `//` is floor division, `Int.fdiv`). -/
def get_ai_commit_status (now : Int) (fs : FS) : String :=
  match fs.statusLog with
  | some last_used =>
    let time_diff := now - last_used
    if time_diff < 3600 then "🤖 Ready"
    else if time_diff < 86400 then "🤖 " ++ toString (time_diff.fdiv 3600) ++ "h"
    else "🤖 " ++ toString (time_diff.fdiv 86400) ++ "d"
  | none => "🤖 Not used"

/-- `ai_git_commit`: the main workflow.  `commit_changes` is
`subprocess.run(["git", "commit", "-m", message])` with the result ignored;
the chosen message is recorded in the `committed` outcome. -/
def ai_git_commit (g : GitEnv) (env : ApiEnv) (inputs : List String) (fs : FS) :
    Except PyExc Outcome × FS :=
  if !(is_git_repo g) then (.ok .notGitRepo, fs)
  else if !(has_staged_changes g) then (.ok .noStagedChanges, fs)
  else
    match get_diff g with
    | .error e => (.error e, fs)
    | .ok diff_output =>
      match (get_commit_messages env diff_output MODEL fs).1 with
      | .error e => (.error e, (get_commit_messages env diff_output MODEL fs).2.1)
      | .ok suggestions =>
        let fs1 := (get_commit_messages env diff_output MODEL fs).2.1
        if suggestions.isEmpty then (.ok .noSuggestions, fs1)
        else
          let commit_message := prompt_commit_message suggestions inputs
          (.ok (.committed commit_message), cache_commit_message diff_output commit_message fs1)

/-! ## Helper lemmas -/

/-- Python `split` never returns an empty list. -/
theorem pySplitOnChar_ne_nil (sep : Char) (cs : List Char) :
    pySplitOnChar sep cs ≠ [] := by
  induction cs with
  | nil => simp [pySplitOnChar]
  | cons c cs ih =>
    rw [pySplitOnChar]
    by_cases h : c = sep
    · simp [h]
    · simp only [h, if_false]
      cases hrest : pySplitOnChar sep cs with
      | nil => simp
      | cons p ps => simp

/-- `s.split("\n")` never returns an empty list. -/
theorem pySplitLines_ne_nil (s : String) : pySplitLines s ≠ [] :=
  pySplitOnChar_ne_nil '\n' s.data

/-- `l[i]` with a default is an element of `l` when the index is in range. -/
theorem getD_mem_of_lt (l : List String) (i : Nat) (h : i < l.length) (d : String) :
    l.getD i d ∈ l := by
  induction l generalizing i with
  | nil => simp at h
  | cons a t ih =>
    cases i with
    | zero => simp
    | succ i =>
      simp only [List.getD_cons_succ, List.mem_cons]
      exact Or.inr (ih i (by simpa using h))

/-- `send_request_to_openai` yields no response when the key is missing or
empty or the status is not 200. -/
theorem send_fst_eq_none (env : ApiEnv)
    (h : env.apiKey = none ∨ env.apiKey = some "" ∨ env.httpStatus ≠ 200) :
    (send_request_to_openai env).1 = none := by
  unfold send_request_to_openai load_api_key
  cases hk : env.apiKey with
  | none => simp
  | some k =>
    rcases h with h | h | h
    · simp [hk] at h
    · rw [hk] at h
      simp [Option.some.injEq] at h
      simp [h]
    · by_cases h0 : k = "" <;> simp [h0, h]

/-- The network call is skipped exactly when the key is missing or empty. -/
theorem send_snd_eq_false_iff (env : ApiEnv) :
    (send_request_to_openai env).2 = false ↔
      (env.apiKey = none ∨ env.apiKey = some "") := by
  unfold send_request_to_openai load_api_key
  cases hk : env.apiKey with
  | none => simp
  | some k =>
    by_cases h0 : k = "" <;> by_cases hs : env.httpStatus = 200 <;>
      simp [h0, hs]

/-- `get_commit_messages` leaves the cache file untouched. -/
theorem gcm_cacheFile (env : ApiEnv) (diff model : String) (fs : FS) :
    ((get_commit_messages env diff model fs).2.1).cacheFile = fs.cacheFile := by
  unfold get_commit_messages
  cases hs : (send_request_to_openai env).1 with
  | none => by_cases hd : pyStrip diff = "" <;> simp [hs, hd, log_request]
  | some r =>
    by_cases ht : r.truthy
    · cases hc : extractContent r with
      | error e => simp [hs, ht, hc, log_request, log_response]
      | ok content => simp [hs, ht, hc, log_request, log_response]
    · by_cases hd : pyStrip diff = "" <;> simp [hs, ht, hd, log_request]

/-- `get_commit_messages` leaves the status marker untouched. -/
theorem gcm_statusLog (env : ApiEnv) (diff model : String) (fs : FS) :
    ((get_commit_messages env diff model fs).2.1).statusLog = fs.statusLog := by
  unfold get_commit_messages
  cases hs : (send_request_to_openai env).1 with
  | none => by_cases hd : pyStrip diff = "" <;> simp [hs, hd, log_request]
  | some r =>
    by_cases ht : r.truthy
    · cases hc : extractContent r with
      | error e => simp [hs, ht, hc, log_request, log_response]
      | ok content => simp [hs, ht, hc, log_request, log_response]
    · by_cases hd : pyStrip diff = "" <;> simp [hs, ht, hd, log_request]

/-- The network-call flag returned by `get_commit_messages` is the one of
`send_request_to_openai`. -/
theorem gcm_attempted (env : ApiEnv) (diff model : String) (fs : FS) :
    (get_commit_messages env diff model fs).2.2 = (send_request_to_openai env).2 := by
  unfold get_commit_messages
  cases hs : (send_request_to_openai env).1 with
  | none => by_cases hd : pyStrip diff = "" <;> simp [hs, hd]
  | some r =>
    by_cases ht : r.truthy
    · cases hc : extractContent r with
      | error e => simp [hs, ht, hc]
      | ok content => simp [hs, ht, hc]
    · by_cases hd : pyStrip diff = "" <;> simp [hs, ht, hd]

/-- Whenever `get_commit_messages` returns suggestions, the list is nonempty. -/
theorem gcm_ok_ne_nil (env : ApiEnv) (diff model : String) (fs : FS)
    (msgs : List String)
    (h : (get_commit_messages env diff model fs).1 = .ok msgs) : msgs ≠ [] := by
  simp only [get_commit_messages] at h
  cases hs : (send_request_to_openai env).1 with
  | none =>
    rw [hs] at h
    by_cases hd : pyStrip diff = "" <;> simp [hd] at h <;> simp [← h]
  | some r =>
    rw [hs] at h
    by_cases ht : r.truthy
    · cases hc : extractContent r with
      | error e => simp [ht, hc] at h
      | ok content =>
        simp [ht, hc] at h
        rw [← h]
        exact pySplitLines_ne_nil (pyStrip content)
    · by_cases hd : pyStrip diff = "" <;> simp [ht, hd] at h <;> simp [← h]

/-! ## Claims -/

/-- C1, counterexample: the workflow can hand the empty string to
`commit_changes`.  When the API answers 200 with an empty message content,
`get_commit_messages` returns `[""]`, and the operator selecting suggestion 1
commits with the empty message. -/
theorem C1_counterexample :
    (ai_git_commit ⟨0, 1, 0, "d"⟩ ⟨some "k", 200, ⟨some [⟨some ⟨some ""⟩⟩], true⟩⟩
        ["1"] fs0).1 = .ok (.committed "") := rfl

/-- C1, amended: `prompt_commit_message` returns a non-empty string provided
every suggestion is non-empty; custom messages and the fallback are always
non-empty, so only selecting an empty suggestion by index yields `""`. -/
theorem C1_selection_nonempty (suggestions : List String)
    (hs : ∀ s ∈ suggestions, s ≠ "") (inputs : List String) :
    prompt_commit_message suggestions inputs ≠ "" := by
  have main : ∀ n (inputs : List String), inputs.length ≤ n →
      prompt_commit_message suggestions inputs ≠ "" := by
    intro n
    induction n with
    | zero =>
      intro inputs hlen
      obtain rfl : inputs = [] := List.eq_nil_of_length_eq_zero (Nat.le_zero.mp hlen)
      unfold prompt_commit_message
      decide
    | succ n ih =>
      intro inputs hlen
      cases inputs with
      | nil =>
        unfold prompt_commit_message
        decide
      | cons line rest =>
        unfold prompt_commit_message
        by_cases hdig : pyIsDigit (pyStrip line) = true
        · rw [if_pos hdig]
          by_cases hrange :
              1 ≤ pyToNat (pyStrip line) ∧ pyToNat (pyStrip line) ≤ suggestions.length
          · rw [if_pos hrange]
            exact hs _ (getD_mem_of_lt suggestions _ (by omega) "")
          · rw [if_neg hrange]
            by_cases hcust : pyToNat (pyStrip line) = suggestions.length + 1
            · rw [if_pos hcust]
              cases rest with
              | nil =>
                show ("Fallback: No input provided." : String) ≠ ""
                decide
              | cons customLine rest2 =>
                show (if pyStrip customLine = "" then
                    prompt_commit_message suggestions rest2
                  else pyStrip customLine) ≠ ""
                by_cases hc : pyStrip customLine = ""
                · rw [if_pos hc]
                  exact ih rest2 (by simp at hlen; omega)
                · rw [if_neg hc]
                  exact hc
            · rw [if_neg hcust]
              exact ih rest (by simp at hlen; omega)
        · rw [if_neg hdig]
          by_cases hempty : pyStrip line = ""
          · rw [if_pos hempty]
            exact ih rest (by simp at hlen; omega)
          · rw [if_neg hempty]
            cases rest with
            | nil =>
              show ("Fallback: No input provided." : String) ≠ ""
              decide
            | cons customLine rest2 =>
              show (if pyStrip customLine = "" then
                  prompt_commit_message suggestions rest2
                else pyStrip customLine) ≠ ""
              by_cases hc : pyStrip customLine = ""
              · rw [if_pos hc]
                exact ih rest2 (by simp at hlen; omega)
              · rw [if_neg hc]
                exact hc
  exact main inputs.length inputs le_rfl

/-- C1, witness: with the non-empty suggestion list `["A"]` and input `"1"`
the selector returns a non-empty message. -/
theorem C1_witness : prompt_commit_message ["A"] ["1"] ≠ "" :=
  C1_selection_nonempty ["A"]
    (by intro s hs; rw [List.mem_singleton] at hs; subst hs; decide) ["1"]

/-- C2, counterexample: with an empty staged diff but a resolvable key and a
successful HTTP exchange, the suggestion step performs the network call
(flag `true`) and returns the response content, not the three placeholder
strings. -/
theorem C2_counterexample :
    (get_commit_messages ⟨some "k", 200, ⟨some [⟨some ⟨some "X"⟩⟩], true⟩⟩
        "" MODEL fs0).1 = .ok ["X"] ∧
    (get_commit_messages ⟨some "k", 200, ⟨some [⟨some ⟨some "X"⟩⟩], true⟩⟩
        "" MODEL fs0).2.2 = true := ⟨rfl, rfl⟩

/-- C2, amended: for a whitespace-only diff the three placeholder strings are
returned exactly when the API yields no response (missing or empty key, or a
non-200 status); the network call is skipped only when the key is missing or
empty — with a resolvable key the request is still attempted. -/
theorem C2_empty_diff_placeholders (env : ApiEnv) (diff model : String) (fs : FS)
    (hdiff : pyStrip diff = "")
    (hfail : env.apiKey = none ∨ env.apiKey = some "" ∨ env.httpStatus ≠ 200) :
    (get_commit_messages env diff model fs).1 =
      .ok ["No changes to commit.", "Nothing modified.", "No staged changes."] ∧
    ((get_commit_messages env diff model fs).2.2 = false ↔
      (env.apiKey = none ∨ env.apiKey = some "")) := by
  have hnone := send_fst_eq_none env hfail
  constructor
  · simp only [get_commit_messages]
    simp [hnone, hdiff]
  · rw [gcm_attempted]
    exact send_snd_eq_false_iff env

/-- C2, witness: absent key file and whitespace-only diff — placeholders
returned and no network call. -/
theorem C2_witness :
    (get_commit_messages ⟨none, 0, ⟨none, false⟩⟩ " " MODEL fs0).1 =
      .ok ["No changes to commit.", "Nothing modified.", "No staged changes."] :=
  (C2_empty_diff_placeholders ⟨none, 0, ⟨none, false⟩⟩ " " MODEL fs0
    (by decide) (Or.inl rfl)).1

/-- C3: for a non-empty diff, a missing credential or a failing HTTP request
makes the suggestion step return exactly the two placeholder strings, as a
normal return value (no exception). -/
theorem C3_failure_placeholder_pair (env : ApiEnv) (diff model : String) (fs : FS)
    (hdiff : pyStrip diff ≠ "")
    (hfail : env.apiKey = none ∨ env.httpStatus ≠ 200) :
    (get_commit_messages env diff model fs).1 =
      .ok ["Failed to generate commit messages. Please try again.",
           "Unable to fetch AI suggestions."] := by
  have hnone := send_fst_eq_none env (hfail.elim Or.inl (fun h => Or.inr (Or.inr h)))
  simp only [get_commit_messages]
  simp [hnone, hdiff]

/-- C3, witness: absent key file and diff `"x"` — the two placeholders. -/
theorem C3_witness :
    (get_commit_messages ⟨none, 0, ⟨none, false⟩⟩ "x" MODEL fs0).1 =
      .ok ["Failed to generate commit messages. Please try again.",
           "Unable to fetch AI suggestions."] :=
  C3_failure_placeholder_pair ⟨none, 0, ⟨none, false⟩⟩ "x" MODEL fs0
    (by decide) (Or.inl rfl)

/-- C4: the selector on `["A","B","C"]` returns `"B"` for input `"2"`,
returns the custom text `"fix bug"` for input `"4"` (the custom option)
followed by `"fix bug"`, and re-prompts on empty input, returning `"A"` for
empty input followed by `"1"`. -/
theorem C4_selector_cases :
    prompt_commit_message ["A", "B", "C"] ["2"] = "B" ∧
    prompt_commit_message ["A", "B", "C"] ["4", "fix bug"] = "fix bug" ∧
    prompt_commit_message ["A", "B", "C"] ["", "1"] = "A" := ⟨rfl, rfl, rfl⟩

/-- C5, counterexample: a model request is attempted (network flag `true`)
yet the status marker file stays absent — no code path writes it. -/
theorem C5_counterexample :
    ((get_commit_messages ⟨some "k", 200, ⟨some [⟨some ⟨some "X"⟩⟩], true⟩⟩
        "d" MODEL fs0).2.1).statusLog = none ∧
    (get_commit_messages ⟨some "k", 200, ⟨some [⟨some ⟨some "X"⟩⟩], true⟩⟩
        "d" MODEL fs0).2.2 = true := ⟨rfl, rfl⟩

/-- C5, amended: no operation of the program ever writes the status marker —
a whole run and the suggestion step both leave it exactly as found
(`get_ai_commit_status` only reads it). -/
theorem C5_marker_never_written (g : GitEnv) (env : ApiEnv)
    (inputs : List String) (fs : FS) :
    ((ai_git_commit g env inputs fs).2).statusLog = fs.statusLog ∧
    (∀ diff model, ((get_commit_messages env diff model fs).2.1).statusLog
        = fs.statusLog) := by
  refine ⟨?_, fun diff model => gcm_statusLog env diff model fs⟩
  unfold ai_git_commit
  by_cases h1 : is_git_repo g = true
  · by_cases h2 : has_staged_changes g = true
    · simp only [h1, h2, Bool.not_true, Bool.false_eq_true, if_false]
      cases hd : get_diff g with
      | error e => simp
      | ok diff =>
        cases hm : (get_commit_messages env diff MODEL fs).1 with
        | error e => simp [hm, gcm_statusLog]
        | ok suggestions =>
          by_cases he : suggestions.isEmpty
          · simp [hm, he, gcm_statusLog]
          · simp [hm, he, cache_commit_message, gcm_statusLog]
    · simp [h1, h2]
  · simp [h1]

/-- C6, counterexample: `get_diff` has no try/except — a non-zero exit of
`git diff --staged` surfaces as a propagated `CalledProcessError`. -/
theorem C6_counterexample :
    get_diff ⟨0, 1, 1, ""⟩ = .error .calledProcessError := rfl

/-- C6, amended: `is_git_repo` and `has_staged_changes` absorb CLI failure
into ordinary workflow outcomes, but a failing `git diff --staged` makes the
whole workflow propagate the process exception. -/
theorem C6_cli_failure_boundary (g : GitEnv) (env : ApiEnv)
    (inputs : List String) (fs : FS) :
    (g.insideWorkTreeExit ≠ 0 → (ai_git_commit g env inputs fs).1 = .ok .notGitRepo) ∧
    (g.insideWorkTreeExit = 0 → g.diffQuietExit = 0 →
      (ai_git_commit g env inputs fs).1 = .ok .noStagedChanges) ∧
    (g.insideWorkTreeExit = 0 → g.diffQuietExit ≠ 0 → g.diffExit ≠ 0 →
      (ai_git_commit g env inputs fs).1 = .error .calledProcessError) := by
  refine ⟨fun h1 => ?_, fun h1 h2 => ?_, fun h1 h2 h3 => ?_⟩
  · unfold ai_git_commit is_git_repo
    simp [h1]
  · unfold ai_git_commit is_git_repo has_staged_changes
    simp [h1, h2]
  · unfold ai_git_commit is_git_repo has_staged_changes get_diff
    simp [h1, h2, h3]

/-- C6, witness: repo present, staged changes present, `git diff --staged`
exits 1 — the error propagates out of the workflow. -/
theorem C6_witness :
    (ai_git_commit ⟨0, 1, 1, ""⟩ ⟨none, 0, ⟨none, false⟩⟩ [] fs0).1 =
      .error .calledProcessError :=
  (C6_cli_failure_boundary ⟨0, 1, 1, ""⟩ ⟨none, 0, ⟨none, false⟩⟩ [] fs0).2.2
    rfl (by decide) (by decide)

/-- C7, counterexample: for a marker 30 minutes old the function returns
`"🤖 Ready"`, not the bare label `"Ready"`. -/
theorem C7_counterexample :
    get_ai_commit_status 1800 ⟨none, none, "", some 0⟩ = "🤖 Ready" ∧
    get_ai_commit_status 1800 ⟨none, none, "", some 0⟩ ≠ "Ready" := by
  constructor
  · rfl
  · decide

/-- C7, amended: the thresholds are as claimed but every label carries the
`"🤖 "` prefix: under an hour `"🤖 Ready"`, under a day `"🤖 {hours}h"` with
hours the floor division of elapsed seconds by 3600, otherwise
`"🤖 {days}d"`, and `"🤖 Not used"` when the marker is absent. -/
theorem C7_freshness_labels (now last_used : Int) (fs : FS) :
    (fs.statusLog = some last_used → 0 ≤ now - last_used →
      ((now - last_used < 3600 → get_ai_commit_status now fs = "🤖 Ready") ∧
       (3600 ≤ now - last_used → now - last_used < 86400 →
         get_ai_commit_status now fs
           = "🤖 " ++ toString ((now - last_used).fdiv 3600) ++ "h") ∧
       (86400 ≤ now - last_used →
         get_ai_commit_status now fs
           = "🤖 " ++ toString ((now - last_used).fdiv 86400) ++ "d"))) ∧
    (fs.statusLog = none → get_ai_commit_status now fs = "🤖 Not used") := by
  constructor
  · intro hlog _
    refine ⟨fun h1 => ?_, fun h1 h2 => ?_, fun h1 => ?_⟩
    · simp [get_ai_commit_status, hlog, h1]
    · have hn : ¬(now - last_used < 3600) := not_lt.mpr h1
      simp [get_ai_commit_status, hlog, hn, h2]
    · have hn1 : ¬(now - last_used < 3600) := by omega
      have hn2 : ¬(now - last_used < 86400) := by omega
      simp [get_ai_commit_status, hlog, hn1, hn2]
  · intro hlog
    simp [get_ai_commit_status, hlog]

/-- C7, witness: a marker 5 hours old yields `"🤖 5h"`. -/
theorem C7_witness :
    get_ai_commit_status 18000 ⟨none, none, "", some 0⟩ = "🤖 5h" := by
  have h := ((C7_freshness_labels 18000 0 ⟨none, none, "", some 0⟩).1 rfl
    (by decide)).2.1 (by decide) (by decide)
  exact h.trans (by decide)

/-- C8: whenever a run commits with message `m`, the cache file grows by
exactly the literal line `diff ++ "|" ++ m ++ "\n"` — appended to the
previous content, with both components untransformed and recoverable by
dropping the old content. -/
theorem C8_cache_appends_literal_line (g : GitEnv) (env : ApiEnv)
    (inputs : List String) (fs : FS) (m : String)
    (h : (ai_git_commit g env inputs fs).1 = .ok (.committed m)) :
    ((ai_git_commit g env inputs fs).2).cacheFile
        = fs.cacheFile ++ (g.diffOutput ++ "|" ++ m ++ "\n") ∧
    (((ai_git_commit g env inputs fs).2).cacheFile.data).drop
        fs.cacheFile.data.length = (g.diffOutput ++ "|" ++ m ++ "\n").data := by
  suffices hmain : ((ai_git_commit g env inputs fs).2).cacheFile
      = fs.cacheFile ++ (g.diffOutput ++ "|" ++ m ++ "\n") by
    refine ⟨hmain, ?_⟩
    rw [hmain]
    have hdata : (fs.cacheFile ++ (g.diffOutput ++ "|" ++ m ++ "\n")).data
        = fs.cacheFile.data ++ (g.diffOutput ++ "|" ++ m ++ "\n").data := rfl
    rw [hdata, List.drop_left]
  unfold ai_git_commit at h ⊢
  by_cases h1 : is_git_repo g = true
  · by_cases h2 : has_staged_changes g = true
    · simp only [h1, h2, Bool.not_true, Bool.false_eq_true, if_false] at h ⊢
      by_cases hd0 : g.diffExit = 0
      · simp only [get_diff, hd0, if_pos] at h ⊢
        cases hm : (get_commit_messages env g.diffOutput MODEL fs).1 with
        | error e => simp [hm] at h
        | ok suggestions =>
          by_cases he : suggestions.isEmpty
          · simp [hm, he] at h
          · simp only [hm, he, Bool.false_eq_true, if_false] at h ⊢
            simp only [Except.ok.injEq, Outcome.committed.injEq] at h
            simp [← h, cache_commit_message, gcm_cacheFile]
      · simp [get_diff, hd0] at h
    · simp [h1, h2] at h
  · simp [h1] at h

/-- C8, witness: a concrete committing run (failing API, placeholder pair,
operator picks suggestion 1) appends the literal `diff|message` line to the
previously empty cache. -/
theorem C8_witness :
    ((ai_git_commit ⟨0, 1, 0, "D"⟩ ⟨none, 0, ⟨none, false⟩⟩ ["1"] fs0).2).cacheFile
      = "" ++ ("D" ++ "|" ++ "Failed to generate commit messages. Please try again."
          ++ "\n") :=
  (C8_cache_appends_literal_line ⟨0, 1, 0, "D"⟩ ⟨none, 0, ⟨none, false⟩⟩ ["1"] fs0
    "Failed to generate commit messages. Please try again." rfl).1

/-- C9, counterexample: on HTTP 200 with content `"a\n\nb"` (an interior
blank line) the returned suggestion list is `["a", "", "b"]`, which contains
the empty string — interior empty lines are not trimmed. -/
theorem C9_counterexample :
    (get_commit_messages ⟨some "k", 200, ⟨some [⟨some ⟨some "a\n\nb"⟩⟩], true⟩⟩
        "d" MODEL fs0).1 = .ok ["a", "", "b"] ∧
    ("" ∈ ["a", "", "b"]) := ⟨rfl, by decide⟩

/-- C9, amended: on HTTP 200 the suggestion step returns the first choice's
content with leading and trailing whitespace stripped from the whole string,
then split on newline — interior blank lines are kept as empty-string
elements, so elements can be empty. -/
theorem C9_split_preserves_interior_blanks (k content diff model : String)
    (hk : k ≠ "") (rest : List PyChoice) (extra : Bool) (fs : FS) :
    (get_commit_messages ⟨some k, 200, ⟨some (⟨some ⟨some content⟩⟩ :: rest), extra⟩⟩
        diff model fs).1 = .ok (pySplitLines (pyStrip content)) := by
  simp only [get_commit_messages, send_request_to_openai, load_api_key]
  simp [hk, PyResponse.truthy, extractContent]

/-- C9, witness: content `"one\ntwo"` yields the two split lines. -/
theorem C9_witness :
    (get_commit_messages ⟨some "k", 200, ⟨some [⟨some ⟨some "one\ntwo"⟩⟩], true⟩⟩
        "d" MODEL fs0).1 = .ok ["one", "two"] :=
  (C9_split_preserves_interior_blanks "k" "one\ntwo" "d" MODEL
    (by decide) [] true fs0).trans rfl

/-- C10: `get_commit_messages` never returns an empty suggestion list (every
returned list — split content or placeholders — is non-empty), so the guard
branch of `ai_git_commit` that reports "no suggestions received" is
unreachable. -/
theorem C10_no_empty_suggestion_list :
    (∀ (env : ApiEnv) (diff model : String) (fs : FS) (msgs : List String),
        (get_commit_messages env diff model fs).1 = .ok msgs → msgs ≠ []) ∧
    (∀ (g : GitEnv) (env : ApiEnv) (inputs : List String) (fs : FS),
        (ai_git_commit g env inputs fs).1 ≠ .ok .noSuggestions) := by
  refine ⟨fun env diff model fs msgs h => gcm_ok_ne_nil env diff model fs msgs h, ?_⟩
  intro g env inputs fs
  unfold ai_git_commit
  by_cases h1 : is_git_repo g = true
  · by_cases h2 : has_staged_changes g = true
    · simp only [h1, h2, Bool.not_true, Bool.false_eq_true, if_false]
      by_cases hd0 : g.diffExit = 0
      · simp only [get_diff, hd0, if_pos]
        cases hm : (get_commit_messages env g.diffOutput MODEL fs).1 with
        | error e => simp [hm]
        | ok suggestions =>
          have hne := gcm_ok_ne_nil env g.diffOutput MODEL fs suggestions hm
          have hempty : suggestions.isEmpty = false := by
            cases suggestions with
            | nil => exact absurd rfl hne
            | cons a t => rfl
          simp [hm, hempty]
      · simp [get_diff, hd0]
    · simp [h1, h2]
  · simp [h1]

/-- C10, witness: the empty-diff placeholder triple, as returned by the
suggestion step when the key is absent, is non-empty. -/
theorem C10_witness :
    (["No changes to commit.", "Nothing modified.", "No staged changes."] :
      List String) ≠ [] :=
  C10_no_empty_suggestion_list.1 ⟨none, 0, ⟨none, false⟩⟩ "" MODEL fs0 _ rfl

end AiGitCommit
